import Mathlib

/-!
Verification development for the alcotaro tarot bot repository.

The Python source is shallowly embedded: pure fragments become Lean
functions, stateful handlers become explicit state-passing functions
over the file-backed stores, and fallible code returns `Option`/`Except`.
Wall-clock timestamps (`created_at`, `updated_at`,
`last_test_reading_date`, `last_premium_reading_date`) and measured
request latencies are not representable in a pure embedding and are
omitted from the embedded records; no claim refers to them.
-/

namespace Alcotaro

/-- A JSON value, the wire/stored format of both flat-file collections
(`data/users.json`, `data/readings.json`) and of upstream OpenAI
responses after `json.loads`.  Objects keep insertion order, mirroring
Python dicts. -/
inductive Json where
  | null : Json
  | bool (b : Bool) : Json
  | int (n : Int) : Json
  | str (s : String) : Json
  | arr (xs : List Json) : Json
  | obj (kvs : List (String × Json)) : Json

/-- Python dict lookup `d.get(k)` on a JSON object modelled as an
association list. -/
def jsonGet : List (String × Json) → String → Option Json
  | [], _ => none
  | (k, v) :: rest, key => if k = key then some v else jsonGet rest key

/-- Python dict assignment `d[k] = v`: overwrite in place if the key is
present, otherwise append (dicts preserve insertion order). -/
def jsonSet : List (String × Json) → String → Json → List (String × Json)
  | [], key, v => [(key, v)]
  | (k, w) :: rest, key, v =>
      if k = key then (k, v) :: rest else (k, w) :: jsonSet rest key v

/-- Python truthiness `bool(x)` for JSON values, as used by
`if not user_data:` in `UserStorage.get_user_state`. -/
def jsonFalsy : Json → Bool
  | .null => true
  | .bool b => !b
  | .int n => n = 0
  | .str s => s = ""
  | .arr xs => xs.isEmpty
  | .obj kvs => kvs.isEmpty

/-! ## Pydantic-style field validators

These model pydantic v2 lax-mode validation for the field types that
appear in `models/schemas.py`.  Coercion is modelled for the cases the
code can meet: integer fields accept ints and integer-literal strings
(but reject booleans, as pydantic v2 does); boolean fields accept
booleans, the ints 0/1, and the strings "true"/"false"; string fields
accept only strings.  Missing optional fields take their declared
defaults. -/

/-- Parse a decimal integer literal with optional leading minus sign,
the core of pydantic's lax `str -> int` coercion. -/
def parseIntLit (s : String) : Option Int :=
  let core (ds : List Char) : Option Nat :=
    if ds.isEmpty then none
    else if ds.all Char.isDigit then
      some (ds.foldl (fun acc c => acc * 10 + (c.toNat - '0'.toNat)) 0)
    else none
  match s.data with
  | '-' :: rest => (core rest).map (fun n => -(n : Int))
  | ds => (core ds).map (fun n => (n : Int))

/-- Validate a required `int` field (pydantic v2: int accepted, integer
string coerced, bool rejected). -/
def vInt : Json → Option Int
  | .int n => some n
  | .str s => parseIntLit s
  | _ => none

/-- Validate an `int` field with a default, given the field's presence. -/
def vIntOpt (j : Option Json) (dflt : Int) : Option Int :=
  match j with
  | none => some dflt
  | some v => vInt v

/-- Validate a `bool` field (pydantic v2 lax: bool, 0/1, "true"/"false"). -/
def vBool : Json → Option Bool
  | .bool b => some b
  | .int 0 => some false
  | .int 1 => some true
  | .str "true" => some true
  | .str "false" => some false
  | _ => none

def vBoolOpt (j : Option Json) (dflt : Bool) : Option Bool :=
  match j with
  | none => some dflt
  | some v => vBool v

/-- Validate a required `str` field. -/
def vStr : Json → Option String
  | .str s => some s
  | _ => none

/-- Validate an `Optional[str]` field: missing or null gives `none`. -/
def vStrOpt (j : Option Json) : Option (Option String) :=
  match j with
  | none => some none
  | some .null => some none
  | some (.str s) => some (some s)
  | some _ => none

/-! ## UserState (`models/schemas.py`) -/

/-- The `UserState` pydantic model, minus the four wall-clock timestamp
fields (see module comment). -/
structure UserState where
  user_id : Int
  username : Option String := none
  test_readings_count : Int := 0
  premium_readings_count : Int := 0
  age_confirmed : Bool := false
  last_reading_id : Option String := none
  deriving Repr, DecidableEq

/-- Embeds `UserState(user_id=uid)`: the fresh default record with zero counts
and unconfirmed age. -/
def UserState.mkNew (uid : Int) : UserState := { user_id := uid }

/-- Embeds `UserState.increment_test_readings`. -/
def UserState.increment_test_readings (u : UserState) : UserState :=
  { u with test_readings_count := u.test_readings_count + 1 }

/-- Embeds `UserState.increment_premium_readings`. -/
def UserState.increment_premium_readings (u : UserState) : UserState :=
  { u with premium_readings_count := u.premium_readings_count + 1 }

/-- Embeds `UserState.confirm_age`. -/
def UserState.confirm_age (u : UserState) : UserState :=
  { u with age_confirmed := true }

/-- Embeds `UserState.set_last_reading`. -/
def UserState.set_last_reading (u : UserState) (rid : String) : UserState :=
  { u with last_reading_id := some rid }

/-- Embeds `UserState.can_do_test_reading(limit, free_users)`: allow-listed
users always pass; everyone else passes while the count is below the
free-tier limit. -/
def UserState.can_do_test_reading (u : UserState) (limit : Int)
    (free_users : List Int) : Bool :=
  if u.user_id ∈ free_users then true
  else u.test_readings_count < limit

/-- Embeds `UserState(**user_data)`: pydantic validation of a stored JSON
record.  The model has no extra-field config, so unknown keys are
ignored; `user_id` is required, everything else defaults.  Any field of
the wrong shape (or a non-object record) fails validation, which the
storage layer turns into `None`. -/
def UserState.validate (j : Json) : Option UserState :=
  match j with
  | .obj kvs => do
      let uid ← vInt (← jsonGet kvs "user_id")
      let uname ← vStrOpt (jsonGet kvs "username")
      let tc ← vIntOpt (jsonGet kvs "test_readings_count") 0
      let pc ← vIntOpt (jsonGet kvs "premium_readings_count") 0
      let age ← vBoolOpt (jsonGet kvs "age_confirmed") false
      let lrid ← vStrOpt (jsonGet kvs "last_reading_id")
      some { user_id := uid, username := uname, test_readings_count := tc,
             premium_readings_count := pc, age_confirmed := age,
             last_reading_id := lrid }
  | _ => none

/-- Embeds `user_state.model_dump()` serialised back to JSON for storage
(timestamp fields omitted, see module comment). -/
def UserState.dump (u : UserState) : Json :=
  .obj [("user_id", .int u.user_id),
        ("username", match u.username with | some s => .str s | none => .null),
        ("test_readings_count", .int u.test_readings_count),
        ("premium_readings_count", .int u.premium_readings_count),
        ("age_confirmed", .bool u.age_confirmed),
        ("last_reading_id",
          match u.last_reading_id with | some s => .str s | none => .null)]

theorem UserState.validate_dump (u : UserState) :
    UserState.validate u.dump = some u := by
  cases u with
  | mk uid uname tc pc age lrid =>
    cases uname <;> cases lrid <;>
      simp [UserState.validate, UserState.dump, jsonGet, vInt, vStrOpt,
            vIntOpt, vBoolOpt, vBool, bind, Option.bind]

/-! ## Key-value file store (`utils/storage.py`)

`Storage` keeps one JSON object per collection in a single file.
`_write_data` writes the whole collection to `<file>.tmp` and then
`os.replace`s it over the original, so the main file only ever changes
in one atomic step.  A collection file is modelled as a `FileState`:
absent, complete with parsed contents, or corrupt (truncated /
malformed bytes that `json.load` would reject).  The per-collection
`asyncio.Lock` serialises individual operations; the model therefore
treats each `_read_data` / `_write_data` as one step. -/

/-- The collection type: a JSON object keyed by stringified ids. -/
abbrev Coll := List (String × Json)

inductive FileState where
  | absent : FileState
  | complete (d : Coll) : FileState
  | corrupt : FileState

/-- The filesystem footprint of one collection: the main file and the
`.tmp` file used by the write path. -/
structure FS where
  main : FileState
  tmp : FileState

/-- Embeds `Storage._read_data`: a missing file is an empty collection; a
malformed file raises `json.JSONDecodeError`, which is caught and also
yields an empty collection.  Only the main file is consulted. -/
def readData (fs : FS) : Coll :=
  match fs.main with
  | .complete d => d
  | .absent => []
  | .corrupt => []

/-- The filesystem states passed through by `Storage._write_data fs d`,
in order: the initial state, a crash mid-way through writing the temp
file (temp corrupt, main untouched), the temp file fully written but
not yet renamed (the simulated crash between temp-write and rename),
and the state after the atomic `os.replace`. -/
def writeTrace (fs : FS) (d : Coll) : List FS :=
  [fs,
   { fs with tmp := .corrupt },
   { fs with tmp := .complete d },
   { main := .complete d, tmp := .absent }]

/-- Embeds `Storage._write_data` run to completion (the previous contents are
fully replaced). -/
def writeData (_fs : FS) (d : Coll) : FS :=
  { main := .complete d, tmp := .absent }

/-- A `put` at the collection level: read the full collection, set one
key, write the full collection back (the shape of `save_user` and
`save_reading`). -/
def putRecord (fs : FS) (key : String) (v : Json) : FS :=
  writeData fs (jsonSet (readData fs) key v)

/-- A `get` at the collection level. -/
def getRecord (fs : FS) (key : String) : Option Json :=
  jsonGet (readData fs) key

/-! ### UserStorage / ReadingStorage facades

For the conversation-flow claims the filesystem layer is not at issue
(claim C7 covers it); the flows operate on the logical collection
contents (`Coll`), exactly the dictionary `_read_data` yields. -/

/-- Embeds `UserStorage.get_user`: `data.get(str(user_id))`. -/
def getUser (users : Coll) (uid : Int) : Option Json :=
  jsonGet users (toString uid)

/-- Embeds `UserStorage.save_user`. -/
def saveUser (users : Coll) (uid : Int) (v : Json) : Coll :=
  jsonSet users (toString uid) v

/-- Embeds `UserStorage.get_user_state`: `None` when the entry is missing or
falsy, and `None` when `UserState(**user_data)` raises (any validation
failure is caught and logged). -/
def getUserState (users : Coll) (uid : Int) : Option UserState :=
  match getUser users uid with
  | none => none
  | some j => if jsonFalsy j then none else UserState.validate j

/-- Embeds `UserStorage.save_user_state`. -/
def saveUserState (users : Coll) (u : UserState) : Coll :=
  saveUser users u.user_id u.dump

/-- Embeds `UserStorage.increment_test_readings_count`: fetch (or synthesize a
fresh default), bump, save, return the new count. -/
def incrementTestReadingsCount (users : Coll) (uid : Int) : Int × Coll :=
  let us := (getUserState users uid).getD (UserState.mkNew uid)
  let us' := us.increment_test_readings
  (us'.test_readings_count, saveUserState users us')

/-- Embeds `ReadingStorage.save_reading`: the record's own "id" key wins if it
is present (a string id; the source would use any present value as the
dict key), otherwise a freshly generated uuid — passed in here as
`freshId`, since uuid generation is nondeterministic. -/
def saveReading (readings : Coll) (readingData : List (String × Json))
    (freshId : String) : String × Coll :=
  let rid := match jsonGet readingData "id" with
    | some (.str s) => s
    | _ => freshId
  let readingData' := jsonSet readingData "id" (.str rid)
  (rid, jsonSet readings rid (.obj readingData'))

/-- Embeds `ReadingStorage.get_reading`. -/
def getReading (readings : Coll) (rid : String) : Option Json :=
  jsonGet readings rid

theorem jsonGet_jsonSet_self (kvs : Coll) (k : String) (v : Json) :
    jsonGet (jsonSet kvs k v) k = some v := by
  induction kvs with
  | nil => simp [jsonSet, jsonGet]
  | cons hd tl ih =>
    obtain ⟨k', v'⟩ := hd
    by_cases h : k' = k <;> simp [jsonSet, jsonGet, h, ih]

theorem jsonGet_jsonSet_other (kvs : Coll) (k k' : String) (v : Json)
    (h : k' ≠ k) : jsonGet (jsonSet kvs k v) k' = jsonGet kvs k' := by
  have h2 : ¬(k = k') := fun h' => h h'.symm
  induction kvs with
  | nil => simp [jsonSet, jsonGet, h2]
  | cons hd tl ih =>
    obtain ⟨k0, v0⟩ := hd
    by_cases h0 : k0 = k
    · subst h0
      simp [jsonSet, jsonGet, h2]
    · by_cases h1 : k0 = k' <;> simp [jsonSet, jsonGet, h0, h1, h, ih]

/-! ## Birthdate validation (`handlers/payments.py`, `process_birthdate`)

The handler runs `message.text.strip()`, then
`datetime.strptime(text, "%d.%m.%Y")` and re-renders with
`strftime("%d.%m.%Y")`; a `ValueError` is answered with a re-prompt.
CPython's `_strptime` compiles the format to an anchored regex:
`%d` matches `3[01]|[12]\d|0[1-9]|[1-9]` (one or two digits, leading
zero optional), `%m` matches `1[0-2]|0[1-9]|[1-9]`, `%Y` matches
exactly four digits, the dots are literal, and any unconsumed trailing
text is an error.  `datetime(year, month, day)` then enforces a real
calendar date with `year >= 1`.  `strftime` zero-pads day and month to
two digits; the year is rendered unpadded (glibc `%Y` does not zero-pad
years below 1000 — irrelevant for four-digit-year inputs above 999 and
noted here for the remainder).  `str.strip()` removes ASCII whitespace
(Unicode whitespace stripping is not modelled; no claim depends on
it). -/

/-- Python `str.strip()` whitespace set (ASCII part). -/
def isPySpace (c : Char) : Bool :=
  c = ' ' || c = '\t' || c = '\n' || c = '\r' ||
  c.toNat = 11 || c.toNat = 12

/-- Python `str.strip()`. -/
def pyStrip (s : String) : String :=
  ⟨(s.data.dropWhile isPySpace).reverse.dropWhile isPySpace |>.reverse⟩

def digitVal (c : Char) : Nat := c.toNat - '0'.toNat

/-- Numeric value of a digit string. -/
def natOfDigits (ds : List Char) : Nat :=
  ds.foldl (fun acc c => acc * 10 + digitVal c) 0

/-- The `%d` component regex `3[01]|[12]\d|0[1-9]|[1-9]` applied to one
whole dot-separated component: its match set is exactly the one- or
two-digit strings whose value is 1..31 ("0" and "00" have value 0 and
are outside every alternative). -/
def parseDayComp (ds : List Char) : Option Nat :=
  if ((ds.length = 1 ∨ ds.length = 2) ∧ ds.all Char.isDigit) ∧
      1 ≤ natOfDigits ds ∧ natOfDigits ds ≤ 31 then
    some (natOfDigits ds)
  else none

/-- The `%m` component regex `1[0-2]|0[1-9]|[1-9]`: exactly the one- or
two-digit strings with value 1..12. -/
def parseMonthComp (ds : List Char) : Option Nat :=
  if ((ds.length = 1 ∨ ds.length = 2) ∧ ds.all Char.isDigit) ∧
      1 ≤ natOfDigits ds ∧ natOfDigits ds ≤ 12 then
    some (natOfDigits ds)
  else none

/-- The `%Y` component regex: exactly four digits. -/
def parseYearComp (ds : List Char) : Option Nat :=
  if ds.length = 4 ∧ ds.all Char.isDigit then some (natOfDigits ds)
  else none

/-- Split a character list on the literal dots, like the compiled
format regex does (each component between consecutive separators;
`Python "a..b".split` style: empty components are kept). -/
def splitDots : List Char → List (List Char)
  | [] => [[]]
  | '.' :: rest => [] :: splitDots rest
  | c :: rest =>
      match splitDots rest with
      | comp :: comps => (c :: comp) :: comps
      | [] => [[c]]

/-- Gregorian leap year, as in `datetime`. -/
def isLeapYear (y : Nat) : Bool :=
  y % 4 = 0 && (y % 100 ≠ 0 || y % 400 = 0)

/-- Days in a month, as enforced by the `datetime` constructor. -/
def daysInMonth (y m : Nat) : Nat :=
  if m = 2 then (if isLeapYear y then 29 else 28)
  else if m = 4 ∨ m = 6 ∨ m = 9 ∨ m = 11 then 30
  else 31

/-- Embeds `datetime(year, month, day)` accepts the triple (month is already
in 1..12 from the regex; `MINYEAR = 1`). -/
def isRealDate (d m y : Nat) : Bool :=
  1 ≤ y && 1 ≤ d && d ≤ daysInMonth y m

/-- Embeds `datetime.strptime(s, "%d.%m.%Y")` on the already-stripped text:
`some (day, month, year)` instead of a `datetime`, `none` instead of a
raised `ValueError`. -/
def strptimeDMY (s : String) : Option (Nat × Nat × Nat) :=
  match splitDots s.data with
  | [ds, ms, ys] =>
      match parseDayComp ds, parseMonthComp ms, parseYearComp ys with
      | some d, some m, some y =>
          if isRealDate d m y then some (d, m, y) else none
      | _, _, _ => none
  | _ => none

/-- Two-digit zero padding, as `strftime` renders `%d` and `%m`. -/
def pad2 (n : Nat) : String :=
  if n < 10 then "0" ++ toString n else toString n

/-- Embeds `strftime("%d.%m.%Y")` of the parsed date. -/
def strftimeDMY (d m y : Nat) : String :=
  pad2 d ++ "." ++ pad2 m ++ "." ++ toString y

/-- The whole validation step of `process_birthdate`: strip, parse,
re-render; `none` is the re-prompt path (`PREMIUM_READING_INVALID_DATE`)
and the function models that no exception escapes (`ValueError` is the
only exception `strptime` raises on bad input, and it is caught). -/
def validateBirthdate (input : String) : Option String :=
  match strptimeDMY (pyStrip input) with
  | some (d, m, y) => some (strftimeDMY d m y)
  | none => none

/-- The acceptance set the specification claims: zero-padded two-digit
day and month, four-digit year, dots as separators, denoting a real
calendar date.  (Modelled from the spec's words for the refinement
comparison in claim C3, not from the source.) -/
def specCanonicalBirthdate (s : String) : Bool :=
  match s.data with
  | [d1, d2, '.', m1, m2, '.', y1, y2, y3, y4] =>
      d1.isDigit && d2.isDigit && m1.isDigit && m2.isDigit &&
      y1.isDigit && y2.isDigit && y3.isDigit && y4.isDigit &&
      (let d := 10 * digitVal d1 + digitVal d2
       let m := 10 * digitVal m1 + digitVal m2
       let y := ((digitVal y1 * 10 + digitVal y2) * 10 + digitVal y3) * 10
                + digitVal y4
       1 ≤ m && m ≤ 12 && isRealDate d m y)
  | _ => false

/-! ## OpenAI service (`services/openai_service.py`)

The exception classes the service can see, with the superclass chain of
the `openai` v1 SDK (`openai/_exceptions.py`, the version pinned by the
imports `from openai import OpenAI, ..., PermissionDeniedError`):
`RateLimitError`, `AuthenticationError` and `PermissionDeniedError`
subclass `APIStatusError`, which subclasses `APIError`;
`APIConnectionError` subclasses `APIError` directly;
`json.JSONDecodeError` subclasses `ValueError`. -/

inductive ExcClass where
  | openAIError | apiError | apiStatusError | apiConnectionError
  | rateLimitError | authenticationError | permissionDeniedError
  | valueError | jsonDecodeError | validationError | otherExc
  deriving Repr, DecidableEq

/-- The full superclass chain of each class (itself included), from the
class hierarchy above. -/
def ancestors : ExcClass → List ExcClass
  | .openAIError => [.openAIError]
  | .apiError => [.apiError, .openAIError]
  | .apiStatusError => [.apiStatusError, .apiError, .openAIError]
  | .apiConnectionError => [.apiConnectionError, .apiError, .openAIError]
  | .rateLimitError =>
      [.rateLimitError, .apiStatusError, .apiError, .openAIError]
  | .authenticationError =>
      [.authenticationError, .apiStatusError, .apiError, .openAIError]
  | .permissionDeniedError =>
      [.permissionDeniedError, .apiStatusError, .apiError, .openAIError]
  | .valueError => [.valueError]
  | .jsonDecodeError => [.jsonDecodeError, .valueError]
  | .validationError => [.validationError]
  | .otherExc => [.otherExc]

/-- Python `isinstance(e, cls)`. -/
def isInstanceOf (c target : ExcClass) : Bool :=
  target ∈ ancestors c

/-- The error taxonomy of `ErrorType`. -/
inductive ErrorType where
  | api_error | rate_limit | connection_error | authentication_error
  | permission_error | validation_error | json_parse_error | unknown_error
  deriving Repr, DecidableEq

/-- Embeds `OpenAIService._categorize_error`, an `isinstance` cascade in source
order (most specific classes first). -/
def categorizeError (c : ExcClass) : ErrorType :=
  if isInstanceOf c .rateLimitError then .rate_limit
  else if isInstanceOf c .apiConnectionError then .connection_error
  else if isInstanceOf c .authenticationError then .authentication_error
  else if isInstanceOf c .permissionDeniedError then .permission_error
  else if isInstanceOf c .apiError then .api_error
  else if isInstanceOf c .validationError then .validation_error
  else if isInstanceOf c .jsonDecodeError then .json_parse_error
  else .unknown_error

/-- The per-error-kind counters of `OpenAIMetrics.error_counts`. -/
structure ErrorCounts where
  api_error : Nat := 0
  rate_limit : Nat := 0
  connection_error : Nat := 0
  authentication_error : Nat := 0
  permission_error : Nat := 0
  validation_error : Nat := 0
  json_parse_error : Nat := 0
  unknown_error : Nat := 0
  deriving Repr, DecidableEq

def ErrorCounts.bump (e : ErrorCounts) : ErrorType → ErrorCounts
  | .api_error => { e with api_error := e.api_error + 1 }
  | .rate_limit => { e with rate_limit := e.rate_limit + 1 }
  | .connection_error => { e with connection_error := e.connection_error + 1 }
  | .authentication_error =>
      { e with authentication_error := e.authentication_error + 1 }
  | .permission_error => { e with permission_error := e.permission_error + 1 }
  | .validation_error => { e with validation_error := e.validation_error + 1 }
  | .json_parse_error => { e with json_parse_error := e.json_parse_error + 1 }
  | .unknown_error => { e with unknown_error := e.unknown_error + 1 }

/-- Embeds `OpenAIMetrics`, minus the response-time fields (wall-clock time is
not representable here; the counter logic is unchanged by dropping
them). -/
structure OpenAIMetrics where
  total_requests : Nat := 0
  successful_requests : Nat := 0
  failed_requests : Nat := 0
  error_counts : ErrorCounts := {}
  deriving Repr, DecidableEq

/-- Embeds `OpenAIMetrics.record_request` (success, or failure with an
optional error type). -/
def OpenAIMetrics.record_request (m : OpenAIMetrics) (success : Bool)
    (errorType : Option ErrorType) : OpenAIMetrics :=
  let m := { m with total_requests := m.total_requests + 1 }
  if success then
    { m with successful_requests := m.successful_requests + 1 }
  else
    { m with failed_requests := m.failed_requests + 1,
             error_counts := match errorType with
               | some et => m.error_counts.bump et
               | none => m.error_counts }

/-- An exception escaping one attempt of `_make_request`: one of the
caught `openai` classes, or a `ValueError` raised by the body for an
empty, malformed, or non-object response. -/
inductive PyErr where
  | rateLimit | connection | authentication | permissionDenied | apiError
  | valueError (msg : String)
  deriving Repr, DecidableEq

def PyErr.cls : PyErr → ExcClass
  | .rateLimit => .rateLimitError
  | .connection => .apiConnectionError
  | .authentication => .authenticationError
  | .permissionDenied => .permissionDeniedError
  | .apiError => .apiError
  | .valueError _ => .valueError

/-- The tenacity predicate
`retry_if_exception_type((APIError, RateLimitError, APIConnectionError))`:
`isinstance` against any class in the tuple.  Because every `openai`
exception in scope subclasses `APIError`, this is true for
authentication and permission errors as well. -/
def retryPredicate (e : PyErr) : Bool :=
  isInstanceOf e.cls .apiError || isInstanceOf e.cls .rateLimitError ||
  isInstanceOf e.cls .apiConnectionError

/-- Embeds `wait_exponential(multiplier=1, min=2, max=10)` after the `n`-th
failed attempt (1-based): `1 * 2^n` clamped to `[2, 10]`. -/
def waitExp (n : Nat) : Nat :=
  min 10 (max 2 (2 ^ n))

/-- What the upstream API does on one attempt, the input the embedded
`_make_request` is driven by (attempt index to behaviour). -/
inductive AttemptOutcome where
  | ok (j : List (String × Json))  -- valid JSON object response
  | exc (e : PyErr)                -- the API call raises
  | emptyResp                      -- empty message content
  | badJson                        -- content that fails `json.loads`
  | nonObject (j : Json)           -- valid JSON but not an object

/-- One attempt of the `_make_request` body: the metric events and the
outcome, following the nested try/except structure of the source.  An
empty response records a failure twice (once where the `ValueError` is
constructed and once in the enclosing `except Exception`); a JSON parse
failure records `json_parse_error` in the inner handler and then
`unknown_error` when the re-raised `ValueError` reaches the outer
`except Exception`; a non-object response raises a `ValueError` caught
only by the outer `except Exception`. -/
def runAttempt (o : AttemptOutcome) (m : OpenAIMetrics) :
    Except PyErr (List (String × Json)) × OpenAIMetrics :=
  match o with
  | .ok j => (.ok j, m.record_request true none)
  | .exc e =>
      (.error e, m.record_request false (some (categorizeError e.cls)))
  | .emptyResp =>
      let m := m.record_request false (some .unknown_error)
      let err : PyErr := .valueError "Пустой ответ от OpenAI API"
      (.error err, m.record_request false (some .unknown_error))
  | .badJson =>
      let m := m.record_request false (some .json_parse_error)
      let err : PyErr := .valueError "Невалидный JSON в ответе"
      (.error err, m.record_request false (some .unknown_error))
  | .nonObject _ =>
      let err : PyErr := .valueError "Ответ не является JSON-объектом"
      (.error err, m.record_request false (some .unknown_error))

/-- The result of `_make_request` under the tenacity wrapper: the
outcome (`reraise=True` surfaces the last exception after exhaustion),
the metrics, how many attempts ran, and the backoff waits slept. -/
structure ReqResult where
  outcome : Except PyErr (List (String × Json))
  metrics : OpenAIMetrics
  attempts : Nat
  waits : List Nat

/-- The retry loop: `left` is the remaining attempt budget including
the current attempt (`stop_after_attempt(3)` starts it at 3); a
non-retryable exception or an exhausted budget reraises. -/
def makeRequestAux (b : Nat → AttemptOutcome) :
    Nat → OpenAIMetrics → Nat → List Nat → ReqResult
  | 0, m, attemptNo, waits =>
      ⟨.error (.valueError "retry budget exhausted"), m, attemptNo, waits⟩
  | left + 1, m, attemptNo, waits =>
      match runAttempt (b attemptNo) m with
      | (.ok j, m') => ⟨.ok j, m', attemptNo + 1, waits⟩
      | (.error e, m') =>
          if left = 0 then ⟨.error e, m', attemptNo + 1, waits⟩
          else if retryPredicate e then
            makeRequestAux b left m' (attemptNo + 1)
              (waits ++ [waitExp (attemptNo + 1)])
          else ⟨.error e, m', attemptNo + 1, waits⟩

/-- Embeds `OpenAIService._make_request` driven by an upstream behaviour. -/
def makeRequest (b : Nat → AttemptOutcome) (m : OpenAIMetrics) : ReqResult :=
  makeRequestAux b 3 m 0 []

/-! ## Reading models and response validation (`models/schemas.py`) -/

/-- The `Card` pydantic model. -/
structure Card where
  name : String
  suit : Option String := none
  position : Option String := none
  description : Option String := none
  interpretation : Option String := none
  alcohol_recommendation : Option String := none
  image_url : Option String := none
  deriving Repr, DecidableEq

/-- Embeds `Card.model_validate` (no extra-field config: unknown keys
ignored). -/
def Card.validate (j : Json) : Option Card :=
  match j with
  | .obj kvs => do
      let name ← vStr (← jsonGet kvs "name")
      let suit ← vStrOpt (jsonGet kvs "suit")
      let position ← vStrOpt (jsonGet kvs "position")
      let description ← vStrOpt (jsonGet kvs "description")
      let interp ← vStrOpt (jsonGet kvs "interpretation")
      let alco ← vStrOpt (jsonGet kvs "alcohol_recommendation")
      let img ← vStrOpt (jsonGet kvs "image_url")
      some { name := name, suit := suit, position := position,
             description := description, interpretation := interp,
             alcohol_recommendation := alco, image_url := img }
  | _ => none

/-- Validate a `List[Card]` field value. -/
def validateCards : List Json → Option (List Card)
  | [] => some []
  | j :: rest => do
      let c ← Card.validate j
      let cs ← validateCards rest
      some (c :: cs)

/-- Validate a `List[str]` field value. -/
def validateStrList : List Json → Option (List String)
  | [] => some []
  | .str s :: rest => (validateStrList rest).map (s :: ·)
  | _ => none

/-- Validate a `Dict[str, str]` field value. -/
def validateStrDict : List (String × Json) → Option (List (String × String))
  | [] => some []
  | (k, .str v) :: rest => (validateStrDict rest).map ((k, v) :: ·)
  | _ => none

/-- The `TestReading` model (`created_at` omitted; see module
comment).  `id`, `cards`, `general_interpretation`,
`personality_traits` and `advice` are required. -/
structure TestReading where
  id : String
  question : Option String := none
  cards : List Card
  general_interpretation : String
  personality_traits : List String
  advice : String
  deriving Repr, DecidableEq

def TestReading.validate (j : Json) : Option TestReading :=
  match j with
  | .obj kvs => do
      let id ← vStr (← jsonGet kvs "id")
      let q ← vStrOpt (jsonGet kvs "question")
      let cards ← match jsonGet kvs "cards" with
        | some (.arr xs) => validateCards xs
        | _ => none
      let gi ← vStr (← jsonGet kvs "general_interpretation")
      let pt ← match jsonGet kvs "personality_traits" with
        | some (.arr xs) => validateStrList xs
        | _ => none
      let adv ← vStr (← jsonGet kvs "advice")
      some { id := id, question := q, cards := cards,
             general_interpretation := gi, personality_traits := pt,
             advice := adv }
  | _ => none

/-- The `DrinkRecommendation` model. -/
structure DrinkRecommendation where
  name : String
  description : String
  ingredients : List String
  preparation : Option String := none
  deriving Repr, DecidableEq

def DrinkRecommendation.validate (j : Json) : Option DrinkRecommendation :=
  match j with
  | .obj kvs => do
      let name ← vStr (← jsonGet kvs "name")
      let desc ← vStr (← jsonGet kvs "description")
      let ing ← match jsonGet kvs "ingredients" with
        | some (.arr xs) => validateStrList xs
        | _ => none
      let prep ← vStrOpt (jsonGet kvs "preparation")
      some { name := name, description := desc, ingredients := ing,
             preparation := prep }
  | _ => none

/-- The `PremiumReading` model (`created_at` omitted). -/
structure PremiumReading where
  id : String
  question : Option String := none
  cards : List Card
  general_interpretation : String
  birthdate : Option String := none
  detailed_interpretations : List (String × String)
  future_prediction : String
  special_message : Option String := none
  drink : DrinkRecommendation
  overall_interpretation : String
  advice : String
  deriving Repr, DecidableEq

def PremiumReading.validate (j : Json) : Option PremiumReading :=
  match j with
  | .obj kvs => do
      let id ← vStr (← jsonGet kvs "id")
      let q ← vStrOpt (jsonGet kvs "question")
      let cards ← match jsonGet kvs "cards" with
        | some (.arr xs) => validateCards xs
        | _ => none
      let gi ← vStr (← jsonGet kvs "general_interpretation")
      let bd ← vStrOpt (jsonGet kvs "birthdate")
      let di ← match jsonGet kvs "detailed_interpretations" with
        | some (.obj kvs') => validateStrDict kvs'
        | _ => none
      let fp ← vStr (← jsonGet kvs "future_prediction")
      let sm ← vStrOpt (jsonGet kvs "special_message")
      let drink ← match jsonGet kvs "drink" with
        | some dj => DrinkRecommendation.validate dj
        | none => none
      let oi ← vStr (← jsonGet kvs "overall_interpretation")
      let adv ← vStr (← jsonGet kvs "advice")
      some { id := id, question := q, cards := cards,
             general_interpretation := gi, birthdate := bd,
             detailed_interpretations := di, future_prediction := fp,
             special_message := sm, drink := drink,
             overall_interpretation := oi, advice := adv }
  | _ => none

/-- The fields every `OpenAIResponse` subclass shares, plus the extra
attributes kept by `model_config = ConfigDict(extra="allow")` (raw JSON
values, as pydantic stores validated-from-dict extras). -/
structure TestReadingResponse where
  success : Bool := true
  error : Option String := none
  reading : Option TestReading := none
  extra : List (String × Json) := []

structure TarotReadingResponse where
  success : Bool := true
  error : Option String := none
  reading : Option PremiumReading := none
  extra : List (String × Json) := []

structure TarotMessageResponse where
  success : Bool := true
  error : Option String := none
  message : Option String := none
  card : Option Card := none
  extra : List (String × Json) := []

/-- The keys of an object that are not declared fields, kept as extras
(`extra="allow"`). -/
def extrasExcept (declared : List String) (kvs : List (String × Json)) :
    List (String × Json) :=
  kvs.filter (fun kv => !(declared.contains kv.fst))

/-- Embeds `TestReadingResponse.model_validate`: `success` defaults to true,
`error` and `reading` to None; a present non-null `reading` must
validate as a `TestReading`; unknown keys become extra attributes. -/
def TestReadingResponse.validate (j : Json) : Option TestReadingResponse :=
  match j with
  | .obj kvs => do
      let succ ← vBoolOpt (jsonGet kvs "success") true
      let err ← vStrOpt (jsonGet kvs "error")
      let reading ← match jsonGet kvs "reading" with
        | none => some none
        | some .null => some none
        | some rj => (TestReading.validate rj).map some
      some { success := succ, error := err, reading := reading,
             extra := extrasExcept ["success", "error", "reading"] kvs }
  | _ => none

def TarotReadingResponse.validate (j : Json) : Option TarotReadingResponse :=
  match j with
  | .obj kvs => do
      let succ ← vBoolOpt (jsonGet kvs "success") true
      let err ← vStrOpt (jsonGet kvs "error")
      let reading ← match jsonGet kvs "reading" with
        | none => some none
        | some .null => some none
        | some rj => (PremiumReading.validate rj).map some
      some { success := succ, error := err, reading := reading,
             extra := extrasExcept ["success", "error", "reading"] kvs }
  | _ => none

def TarotMessageResponse.validate (j : Json) : Option TarotMessageResponse :=
  match j with
  | .obj kvs => do
      let succ ← vBoolOpt (jsonGet kvs "success") true
      let err ← vStrOpt (jsonGet kvs "error")
      let msg ← vStrOpt (jsonGet kvs "message")
      let card ← match jsonGet kvs "card" with
        | none => some none
        | some .null => some none
        | some cj => (Card.validate cj).map some
      some { success := succ, error := err, message := msg, card := card,
             extra := extrasExcept ["success", "error", "message", "card"] kvs }
  | _ => none

/-! ## The generation operations (`OpenAIService.generate_*`)

Each operation drives `_make_request`, parses the returned object with
`_parse_response` (validation failure falls back to the typed
`success=False` fallback), and converts any escaped exception into the
same fallback with `error = "Техническая ошибка: <category>"`.  Each
returns the response, the updated metrics, and (for the retry claims)
the attempt count of the underlying request. -/

/-- Embeds `ErrorType.value`, the string written into the fallback error. -/
def ErrorType.value : ErrorType → String
  | .api_error => "api_error"
  | .rate_limit => "rate_limit"
  | .connection_error => "connection_error"
  | .authentication_error => "authentication_error"
  | .permission_error => "permission_error"
  | .validation_error => "validation_error"
  | .json_parse_error => "json_parse_error"
  | .unknown_error => "unknown_error"

/-- Embeds `OpenAIService.generate_test_reading`. -/
def generateTestReading (b : Nat → AttemptOutcome) (m : OpenAIMetrics) :
    TestReadingResponse × OpenAIMetrics × Nat :=
  let fallback : TestReadingResponse :=
    { success := false, error := some "Не удалось сгенерировать тестовое гадание" }
  let r := makeRequest b m
  match r.outcome with
  | .ok kvs =>
      -- `_parse_response(response_data, TestReadingResponse, fallback)`
      let parsed := (TestReadingResponse.validate (.obj kvs)).getD fallback
      (parsed, r.metrics, r.attempts)
  | .error e =>
      ({ fallback with
          error := some ("Техническая ошибка: " ++
                         (categorizeError e.cls).value) },
       r.metrics, r.attempts)

/-- Embeds `OpenAIService.generate_tarot_reading` (the birthdate/question
substitution only affects prompt text, which carries no logic here). -/
def generateTarotReading (b : Nat → AttemptOutcome) (m : OpenAIMetrics) :
    TarotReadingResponse × OpenAIMetrics × Nat :=
  let fallback : TarotReadingResponse :=
    { success := false, error := some "Не удалось сгенерировать гадание на картах Таро" }
  let r := makeRequest b m
  match r.outcome with
  | .ok kvs =>
      let parsed := (TarotReadingResponse.validate (.obj kvs)).getD fallback
      (parsed, r.metrics, r.attempts)
  | .error e =>
      ({ fallback with
          error := some ("Техническая ошибка: " ++
                         (categorizeError e.cls).value) },
       r.metrics, r.attempts)

/-- Embeds `OpenAIService.generate_tarot_message` (unused by handlers). -/
def generateTarotMessage (b : Nat → AttemptOutcome) (m : OpenAIMetrics) :
    TarotMessageResponse × OpenAIMetrics × Nat :=
  let fallback : TarotMessageResponse :=
    { success := false, error := some "Не удалось сгенерировать сообщение от карт Таро" }
  let r := makeRequest b m
  match r.outcome with
  | .ok kvs =>
      let parsed := (TarotMessageResponse.validate (.obj kvs)).getD fallback
      (parsed, r.metrics, r.attempts)
  | .error e =>
      ({ fallback with
          error := some ("Техническая ошибка: " ++
                         (categorizeError e.cls).value) },
       r.metrics, r.attempts)

/-! ## Serialisation back to JSON (`model_dump`)

Both handlers persist a reading via
`reading_storage.save_reading({**response.model_dump(), "user_id": uid})`.
`model_dump` lists declared fields in declaration order and then the
extra attributes (`created_at` omitted as before). -/

def optStrJson : Option String → Json
  | some s => .str s
  | none => .null

def Card.dump (c : Card) : Json :=
  .obj [("name", .str c.name), ("suit", optStrJson c.suit),
        ("position", optStrJson c.position),
        ("description", optStrJson c.description),
        ("interpretation", optStrJson c.interpretation),
        ("alcohol_recommendation", optStrJson c.alcohol_recommendation),
        ("image_url", optStrJson c.image_url)]

def TestReading.dump (r : TestReading) : Json :=
  .obj [("id", .str r.id), ("question", optStrJson r.question),
        ("cards", .arr (r.cards.map Card.dump)),
        ("general_interpretation", .str r.general_interpretation),
        ("personality_traits", .arr (r.personality_traits.map Json.str)),
        ("advice", .str r.advice)]

def DrinkRecommendation.dump (d : DrinkRecommendation) : Json :=
  .obj [("name", .str d.name), ("description", .str d.description),
        ("ingredients", .arr (d.ingredients.map Json.str)),
        ("preparation", optStrJson d.preparation)]

def PremiumReading.dump (r : PremiumReading) : Json :=
  .obj [("id", .str r.id), ("question", optStrJson r.question),
        ("cards", .arr (r.cards.map Card.dump)),
        ("general_interpretation", .str r.general_interpretation),
        ("birthdate", optStrJson r.birthdate),
        ("detailed_interpretations",
          .obj (r.detailed_interpretations.map (fun kv => (kv.1, .str kv.2)))),
        ("future_prediction", .str r.future_prediction),
        ("special_message", optStrJson r.special_message),
        ("drink", r.drink.dump),
        ("overall_interpretation", .str r.overall_interpretation),
        ("advice", .str r.advice)]

def TestReadingResponse.dump (t : TestReadingResponse) :
    List (String × Json) :=
  [("success", .bool t.success), ("error", optStrJson t.error),
   ("reading", match t.reading with | some r => r.dump | none => .null)]
  ++ t.extra

def TarotReadingResponse.dump (t : TarotReadingResponse) :
    List (String × Json) :=
  [("success", .bool t.success), ("error", optStrJson t.error),
   ("reading", match t.reading with | some r => r.dump | none => .null)]
  ++ t.extra

/-! ## Conversation handlers (`handlers/tarot.py`, `handlers/payments.py`)

Each handler is a function from its inputs and the logical store
contents to a result tag (which outbound message path ran), the updated
stores, and the aiogram FSM state it leaves behind.  Generation results
and fresh uuids are passed in explicitly. -/

/-- The aiogram FSM states: `AgeVerificationStates` plus
`PremiumReadingStates`; `idle` is a cleared state. -/
inductive FsmState where
  | idle
  | waitingForConfirmation
  | waitingForPayment
  | waitingForBirthdate
  | generatingReading
  deriving Repr, DecidableEq

/-- The configuration surface the handlers read (`config.py`):
`FREE_TEST_LIMIT` and the parsed allow-list `get_free_users()`. -/
structure Config where
  FREE_TEST_LIMIT : Int := 3
  freeUsers : List Int := []

/-- Embeds `command_start` (`/start`): a missing-or-unvalidatable user record
is treated as a brand-new user — a fresh default record is saved and the
age-verification prompt is shown; a stored unconfirmed user gets the
prompt without a save; a confirmed user gets the menu. -/
inductive StartResult where
  | ageVerification | welcomeMenu
  deriving Repr, DecidableEq

def commandStart (uid : Int) (users : Coll) : StartResult × Coll × FsmState :=
  match getUserState users uid with
  | none =>
      (.ageVerification, saveUserState users (UserState.mkNew uid),
       .waitingForConfirmation)
  | some us =>
      if !us.age_confirmed then
        (.ageVerification, users, .waitingForConfirmation)
      else (.welcomeMenu, users, .idle)

/-- The possible outcomes of `start_test_reading`. -/
inductive TestFlowResult where
  | agePrompt
  | limitReached
  | genFailure (errText : String)
  | deliveryError     -- `ValueError`/`AttributeError` in the card
                      -- formatting, caught by the outer handler
  | delivered
  deriving Repr, DecidableEq

/-- The `card_obj` the card-extraction code ends up holding: an extra
attribute (a raw JSON value) or `reading.cards[0]` (a `Card` model). -/
inductive CardObj where
  | fromExtra (j : Json)
  | fromModel (c : Card)

/-- The card-extraction tail of `start_test_reading` (it runs after the
reading is saved and the counter incremented): `getattr(test_reading,
"card", None)` falling back to `reading.cards[0]`; a missing card is a
`raise ValueError`, a falsy or non-dict extra `card` value is a
`ValueError`/`AttributeError` — all caught by the handler's outer
`except`, which shows the generic error text instead of the result. -/
def testDeliveryOk (gen : TestReadingResponse) : Bool :=
  let cardAttr : Option CardObj :=
    match jsonGet gen.extra "card" with
    | some .null => none
    | some j => some (.fromExtra j)
    | none => none
  let cardObj : Option CardObj :=
    match cardAttr, gen.reading with
    | none, some inner =>
        match inner.cards with
        | c :: _ => some (.fromModel c)
        | [] => none
    | co, _ => co
  match cardObj with
  | none => false                                -- raise ValueError
  | some (.fromExtra j) =>
      if jsonFalsy j then false
      else match j with
        | .obj _ => true                         -- dict access path
        | _ => false                             -- AttributeError
  | some (.fromModel _) => true

def testDeliveryResult (gen : TestReadingResponse) : TestFlowResult :=
  if testDeliveryOk gen then .delivered else .deliveryError

/-- Embeds `start_test_reading`: age gate, free-tier guard
(`can_do_test_reading`), generation, then — only on a successful
outcome — `save_reading` and `increment_test_readings`, followed by the
card extraction for the result message. -/
def startTestReading (uid : Int) (cfg : Config) (users readings : Coll)
    (gen : TestReadingResponse) (freshId : String) :
    TestFlowResult × Coll × Coll :=
  match getUserState users uid with
  | none => (.agePrompt, users, readings)
  | some us =>
    if !us.age_confirmed then (.agePrompt, users, readings)
    else if !us.can_do_test_reading cfg.FREE_TEST_LIMIT cfg.freeUsers then
      (.limitReached, users, readings)
    else if !gen.success then
      (.genFailure (match gen.error with
                    | some s => s
                    | none => "None"),  -- f-string prints the None attribute
       users, readings)
    else
      let readings' :=
        (saveReading readings (jsonSet gen.dump "user_id" (.int uid)) freshId).2
      let users' := saveUserState users us.increment_test_readings
      (testDeliveryResult gen, users', readings')

/-- Embeds `start_premium_reading` (`/premium` or the menu button): sends the
premium offer with the pay button; it reads no user record, performs no
age check, and changes no state. -/
inductive PremiumEntryResult where
  | premiumOffer
  deriving Repr, DecidableEq

def startPremiumReading (_uid : Int) (users : Coll) :
    PremiumEntryResult × Coll :=
  (.premiumOffer, users)

/-- Embeds `process_payment` (the pay button): allow-listed users skip payment
straight to the birthdate prompt; everyone else gets an invoice.  No
user record is read and no age check happens. -/
inductive PaymentEntryResult where
  | birthdatePromptFree | invoiceSent
  deriving Repr, DecidableEq

def processPayment (uid : Int) (cfg : Config) :
    PaymentEntryResult × FsmState :=
  if uid ∈ cfg.freeUsers then (.birthdatePromptFree, .waitingForBirthdate)
  else (.invoiceSent, .waitingForPayment)

/-- Embeds `process_successful_payment`: on the payment-settled event the
premium counter is incremented (directly, before any generation) and
the flow moves to the birthdate prompt. -/
def processSuccessfulPayment (uid : Int) (users : Coll) :
    Coll × FsmState :=
  let us := (getUserState users uid).getD (UserState.mkNew uid)
  let us' := { us with premium_readings_count := us.premium_readings_count + 1 }
  (saveUserState users us', .waitingForBirthdate)

/-- The possible outcomes of `process_birthdate`. -/
inductive BirthdateResult where
  | invalidDate                      -- re-prompt, state unchanged
  | premiumDelivered
  | premiumGenFailed (errText : String)
  | premiumDeliveryError             -- IndexError past 3 cards, caught
  deriving Repr, DecidableEq

/-- The delivery tail of `process_birthdate`, after the unconditional
`save_reading`: success with a reading iterates the cards (an
`IndexError` past `card_numbers[2]` is caught by the outer `except`,
which also clears the state); otherwise the failure message is shown
with `premium_reading.error or "Неизвестная ошибка"`. -/
def premiumDeliveryResult (gen : TarotReadingResponse) : BirthdateResult :=
  match gen.success, gen.reading with
  | true, some r =>
      if r.cards.length ≤ 3 then .premiumDelivered
      else .premiumDeliveryError
  | _, _ =>
      .premiumGenFailed
        (match gen.error with
         | some s => if s = "" then "Неизвестная ошибка" else s
         | none => "Неизвестная ошибка")  -- Python `error or default`

/-- Embeds `process_birthdate`: validate the date (re-prompt on failure),
generate, then `save_reading` UNCONDITIONALLY (successful or failed
outcome alike), deliver or report, and clear the FSM state.  The user
record is never touched here. -/
def processBirthdate (uid : Int) (text : String) (users readings : Coll)
    (gen : TarotReadingResponse) (freshId : String) :
    BirthdateResult × Coll × Coll × FsmState :=
  match validateBirthdate text with
  | none => (.invalidDate, users, readings, .waitingForBirthdate)
  | some _birthdateStr =>
      let readings' :=
        (saveReading readings (jsonSet gen.dump "user_id" (.int uid)) freshId).2
      (premiumDeliveryResult gen, users, readings', .idle)

/-- Observer: the premium count of the stored record under `uid`, for
stating counter claims over raw stores. -/
def premiumCountOf (users : Coll) (uid : Int) : Option Int :=
  (getUserState users uid).map UserState.premium_readings_count

/-- Observer: the test count of the stored record under `uid`. -/
def testCountOf (users : Coll) (uid : Int) : Option Int :=
  (getUserState users uid).map UserState.test_readings_count

/-! # Claims -/

theorem parseDayComp_range {ds : List Char} {d : Nat}
    (h : parseDayComp ds = some d) : 1 ≤ d ∧ d ≤ 31 := by
  unfold parseDayComp at h
  split_ifs at h with h1
  exact Option.some.inj h ▸ h1.2

theorem parseMonthComp_range {ds : List Char} {m : Nat}
    (h : parseMonthComp ds = some m) : 1 ≤ m ∧ m ≤ 12 := by
  unfold parseMonthComp at h
  split_ifs at h with h1
  exact Option.some.inj h ▸ h1.2

theorem strptimeDMY_sound {s : String} {d m y : Nat}
    (h : strptimeDMY s = some (d, m, y)) :
    1 ≤ d ∧ d ≤ 31 ∧ 1 ≤ m ∧ m ≤ 12 ∧ isRealDate d m y = true := by
  unfold strptimeDMY at h
  split at h
  case h_2 => exact absurd h (by simp)
  case h_1 ds ms ys _ =>
    cases hd : parseDayComp ds with
    | none => simp [hd] at h
    | some d0 =>
      cases hm : parseMonthComp ms with
      | none => simp [hd, hm] at h
      | some m0 =>
        cases hy : parseYearComp ys with
        | none => simp [hd, hm, hy] at h
        | some y0 =>
          simp only [hd, hm, hy] at h
          split at h
          case isTrue hr =>
            simp only [Option.some.injEq, Prod.mk.injEq] at h
            obtain ⟨rfl, rfl, rfl⟩ := h
            exact ⟨(parseDayComp_range hd).1, (parseDayComp_range hd).2,
                   (parseMonthComp_range hm).1, (parseMonthComp_range hm).2, hr⟩
          case isFalse hr => exact absurd h (by simp)

/-- C3 (amended), theorem: every string the validator accepts parses
(after Python `strip`) as day.month.year where the day is written with
one or two digits (value 1..31), the month with one or two digits
(value 1..12) and the year with exactly four digits, the triple is a
real calendar date, and the output is the canonical re-rendering with
zero-padded two-digit day and month — so all accepted spellings of one
date normalise to the same canonical string; every rejected string is
answered by `process_birthdate` with a re-prompt and unchanged stores,
not an exception; zero-padding of day and month is NOT required on
input (the aspect the original claim got wrong), as the concrete
evaluations show. -/
theorem C3_birthdate_validation :
    (∀ s out, validateBirthdate s = some out →
      ∃ d m y, strptimeDMY (pyStrip s) = some (d, m, y) ∧
        out = pad2 d ++ "." ++ pad2 m ++ "." ++ toString y ∧
        1 ≤ d ∧ d ≤ 31 ∧ 1 ≤ m ∧ m ≤ 12 ∧ isRealDate d m y = true) ∧
    (∀ uid text users readings gen fid, validateBirthdate text = none →
      processBirthdate uid text users readings gen fid =
        (.invalidDate, users, readings, .waitingForBirthdate)) ∧
    validateBirthdate "05.08.1990" = some "05.08.1990" ∧
    validateBirthdate "5.8.1990" = some "05.08.1990" ∧
    validateBirthdate " 05.08.1990 " = some "05.08.1990" ∧
    validateBirthdate "31.02.2021" = none ∧
    validateBirthdate "00.08.1990" = none ∧
    validateBirthdate "05-08-1990" = none ∧
    validateBirthdate "05.08.990" = none ∧
    validateBirthdate "05.08.1990 x" = none := by
  refine ⟨?_, ?_, rfl, rfl, rfl, rfl, rfl, rfl, rfl, rfl⟩
  · intro s out h
    unfold validateBirthdate at h
    cases hp : strptimeDMY (pyStrip s) with
    | none => rw [hp] at h; exact absurd h (by simp)
    | some t =>
      obtain ⟨d, m, y⟩ := t
      rw [hp] at h
      obtain ⟨h1, h2, h3, h4, h5⟩ := strptimeDMY_sound hp
      exact ⟨d, m, y, rfl, (Option.some.inj h).symm, h1, h2, h3, h4, h5⟩
  · intro uid text users readings gen fid h
    unfold processBirthdate
    rw [h]

/-- C3, witness: the theorem applied at `"5.8.1990"` (accepted) and at
`"31.02.2021"` (rejected and re-prompted). -/
theorem C3_birthdate_validation_witness :
    (∃ d m y, strptimeDMY (pyStrip "5.8.1990") = some (d, m, y) ∧
      "05.08.1990" = pad2 d ++ "." ++ pad2 m ++ "." ++ toString y ∧
      1 ≤ d ∧ d ≤ 31 ∧ 1 ≤ m ∧ m ≤ 12 ∧ isRealDate d m y = true) ∧
    processBirthdate 5 "31.02.2021" [] [] { success := true } "rid" =
      (.invalidDate, [], [], .waitingForBirthdate) :=
  ⟨C3_birthdate_validation.1 "5.8.1990" "05.08.1990" rfl,
   C3_birthdate_validation.2.1 5 "31.02.2021" [] [] { success := true } "rid" rfl⟩

/-- C3, counterexample to the original claim: the claim requires the
validator to accept exactly the zero-padded `DD.MM.YYYY` spellings, but
`"5.8.1990"` (no zero padding) is accepted and normalised, because
CPython's `%d`/`%m` patterns also match single digits. -/
theorem C3_counterexample :
    validateBirthdate "5.8.1990" = some "05.08.1990" ∧
    specCanonicalBirthdate "5.8.1990" = false :=
  ⟨rfl, rfl⟩

/-- C7, theorem: `_write_data` only touches the main file in the final
atomic rename, so at every point of the write — including a crash while
writing the temp file and the crash between temp-write and rename where
only the original main file exists — a read returns either the complete
pre-write collection or the complete post-write collection, never a
partial mix; and a `put` followed by a `get` of the same key returns
the record just written, leaving other keys unchanged. -/
theorem C7_atomic_write_round_trip :
    (∀ fs d fs', fs' ∈ writeTrace fs d →
      readData fs' = readData fs ∨ readData fs' = d) ∧
    (∀ fs d, readData { fs with tmp := .complete d } = readData fs) ∧
    (∀ fs d, readData (writeData fs d) = d) ∧
    (∀ fs k v, getRecord (putRecord fs k v) k = some v) ∧
    (∀ fs k k' v, k' ≠ k →
      getRecord (putRecord fs k v) k' = getRecord fs k') := by
  refine ⟨?_, fun fs d => rfl, fun fs d => rfl, ?_, ?_⟩
  · intro fs d fs' hmem
    simp only [writeTrace, List.mem_cons, List.not_mem_nil, or_false] at hmem
    rcases hmem with h | h | h | h <;> subst h
    · exact Or.inl rfl
    · exact Or.inl rfl
    · exact Or.inl rfl
    · exact Or.inr rfl
  · intro fs k v
    exact jsonGet_jsonSet_self (readData fs) k v
  · intro fs k k' v h
    exact jsonGet_jsonSet_other (readData fs) k k' v h

/-- C7, witness: the theorem applied to a concrete store holding one
record, a crashed write of an updated collection, and a completed
put/get round trip. -/
theorem C7_atomic_write_round_trip_witness :
    (readData { main := .complete [("1", Json.int 7)], tmp := .complete [("1", Json.int 8)] } =
      readData { main := FileState.complete [("1", Json.int 7)], tmp := .absent } ∨
     readData { main := .complete [("1", Json.int 7)], tmp := .complete [("1", Json.int 8)] } =
      [("1", Json.int 8)]) ∧
    getRecord (putRecord { main := .complete [("1", Json.int 7)], tmp := .absent }
                 "2" (Json.int 9)) "2" = some (Json.int 9) :=
  ⟨C7_atomic_write_round_trip.1
      { main := .complete [("1", Json.int 7)], tmp := .absent }
      [("1", Json.int 8)]
      { main := .complete [("1", Json.int 7)], tmp := .complete [("1", Json.int 8)] }
      (by simp [writeTrace]),
   C7_atomic_write_round_trip.2.2.2.1
      { main := .complete [("1", Json.int 7)], tmp := .absent } "2" (Json.int 9)⟩

/-- A syntactically valid test-reading payload (used to drive the
retry-then-succeed scenarios). -/
def okTestKvs : List (String × Json) :=
  [("reading", Json.obj
     [("id", Json.str "r1"),
      ("cards", Json.arr [Json.obj [("name", Json.str "The Fool")]]),
      ("general_interpretation", Json.str "ok"),
      ("personality_traits", Json.arr [Json.str "kind"]),
      ("advice", Json.str "rest")])]

/-- The `TestReading` that `okTestKvs` validates to. -/
def okTestReading : TestReading :=
  { id := "r1", cards := [{ name := "The Fool" }],
    general_interpretation := "ok", personality_traits := ["kind"],
    advice := "rest" }

/-- Upstream behaviour: rate-limited twice, then a valid payload. -/
def rl2Behavior : Nat → AttemptOutcome :=
  fun i => if i < 2 then .exc .rateLimit else .ok okTestKvs

/-- Upstream behaviour: rate-limited on every attempt. -/
def rlAllBehavior : Nat → AttemptOutcome := fun _ => .exc .rateLimit

/-- C4, counterexample to the original claim: an upstream that raises
`AuthenticationError` (or `PermissionDeniedError`) on every attempt IS
retried — `_make_request` runs all 3 attempts instead of surfacing the
failure immediately — because in the `openai` v1 SDK both classes
subclass `APIError`, which is in the tenacity
`retry_if_exception_type` tuple. -/
theorem C4_counterexample :
    (makeRequest (fun _ => .exc .authentication) {}).attempts = 3 ∧
    (makeRequest (fun _ => .exc .permissionDenied) {}).attempts = 3 ∧
    retryPredicate .authentication = true ∧
    retryPredicate .permissionDenied = true ∧
    isInstanceOf (PyErr.cls .authentication) .apiError = true :=
  ⟨rfl, rfl, rfl, rfl, rfl⟩

/-- C4 (amended), theorem: the client retries on every `openai` API
exception — rate-limit, connection and generic API errors, but also
authentication and permission errors, since those subclass `APIError` —
up to 3 attempts total with exponential backoff (waits 2 then 4
seconds, each wait clamped to the band [2, 10]), and surfaces the final
failure after exhaustion; only faults outside the `openai` exception
tree (the `ValueError`s raised for data-shape problems) are not
retried and surface immediately. -/
theorem C4_retry_policy :
    (∀ es : Nat → PyErr, (∀ i, retryPredicate (es i) = true) → ∀ m,
      (makeRequest (fun i => .exc (es i)) m).outcome = .error (es 2) ∧
      (makeRequest (fun i => .exc (es i)) m).attempts = 3 ∧
      (makeRequest (fun i => .exc (es i)) m).waits = [waitExp 1, waitExp 2]) ∧
    (∀ msg m,
      (makeRequest (fun _ => .exc (.valueError msg)) m).attempts = 1 ∧
      (makeRequest (fun _ => .exc (.valueError msg)) m).outcome =
        .error (.valueError msg)) ∧
    retryPredicate .rateLimit = true ∧
    retryPredicate .connection = true ∧
    retryPredicate .apiError = true ∧
    retryPredicate .authentication = true ∧
    retryPredicate .permissionDenied = true ∧
    (∀ msg, retryPredicate (.valueError msg) = false) ∧
    waitExp 1 = 2 ∧ waitExp 2 = 4 ∧
    (∀ n, 2 ≤ waitExp n ∧ waitExp n ≤ 10) := by
  refine ⟨?_, ?_, rfl, rfl, rfl, rfl, rfl, fun msg => rfl, rfl, rfl, ?_⟩
  · intro es h m
    simp [makeRequest, makeRequestAux, runAttempt, h 0, h 1]
  · intro msg m
    simp [makeRequest, makeRequestAux, runAttempt, retryPredicate,
          PyErr.cls, isInstanceOf, ancestors]
  · intro n
    exact ⟨le_min (by norm_num) (le_max_left _ _), min_le_left _ _⟩

/-- C4, witness: the amended theorem applied to a constant rate-limit
stream (three attempts, backoff 2 then 4) and to a data-shape
`ValueError` (one attempt, no retry). -/
theorem C4_retry_policy_witness :
    ((makeRequest (fun i => .exc ((fun _ => PyErr.rateLimit) i)) {}).outcome =
        .error PyErr.rateLimit ∧
      (makeRequest (fun i => .exc ((fun _ => PyErr.rateLimit) i)) {}).attempts = 3 ∧
      (makeRequest (fun i => .exc ((fun _ => PyErr.rateLimit) i)) {}).waits =
        [waitExp 1, waitExp 2]) ∧
    (makeRequest (fun _ => .exc (.valueError "bad")) {}).attempts = 1 :=
  ⟨C4_retry_policy.1 (fun _ => .rateLimit) (fun _ => rfl) {},
   (C4_retry_policy.2.1 "bad" {}).1⟩

/-- C9, theorem: two rate-limit faults followed by a valid payload make
`generate_test_reading` return the successful parsed result after 3
attempts, with the metrics accumulator gaining 1 success, 2 failures
(both counted as rate-limit) and 3 total requests; three consecutive
rate-limit faults make it return a `success=False` outcome object (the
exception does not escape) after exactly 3 attempts, with 3 failures
recorded. -/
theorem C9_retry_scenarios :
    (∀ m0,
      (generateTestReading rl2Behavior m0).1 =
        { success := true, error := none, reading := some okTestReading,
          extra := [] } ∧
      (generateTestReading rl2Behavior m0).2.2 = 3 ∧
      (generateTestReading rl2Behavior m0).2.1.total_requests =
        m0.total_requests + 3 ∧
      (generateTestReading rl2Behavior m0).2.1.successful_requests =
        m0.successful_requests + 1 ∧
      (generateTestReading rl2Behavior m0).2.1.failed_requests =
        m0.failed_requests + 2 ∧
      (generateTestReading rl2Behavior m0).2.1.error_counts.rate_limit =
        m0.error_counts.rate_limit + 2) ∧
    (∀ m0,
      (generateTestReading rlAllBehavior m0).1.success = false ∧
      (generateTestReading rlAllBehavior m0).1.error =
        some "Техническая ошибка: rate_limit" ∧
      (generateTestReading rlAllBehavior m0).2.2 = 3 ∧
      (generateTestReading rlAllBehavior m0).2.1.failed_requests =
        m0.failed_requests + 3 ∧
      (generateTestReading rlAllBehavior m0).2.1.error_counts.rate_limit =
        m0.error_counts.rate_limit + 3) := by
  constructor
  · intro m0
    simp [generateTestReading, makeRequest, makeRequestAux, runAttempt,
          rl2Behavior, okTestKvs, okTestReading, retryPredicate, PyErr.cls,
          isInstanceOf, ancestors, categorizeError,
          OpenAIMetrics.record_request, ErrorCounts.bump,
          TestReadingResponse.validate, TestReading.validate, Card.validate,
          validateCards, validateStrList, jsonGet, vBoolOpt, vStrOpt, vStr,
          extrasExcept, bind, Option.bind]
  · intro m0
    simp [generateTestReading, makeRequest, makeRequestAux, runAttempt,
          rlAllBehavior, retryPredicate, PyErr.cls, isInstanceOf, ancestors,
          categorizeError, OpenAIMetrics.record_request, ErrorCounts.bump,
          ErrorType.value]

/-- C5, theorem: whatever the upstream does, each generation operation
returns a well-formed outcome object.  Any exception escaping
`_make_request` — upstream API exceptions after retry exhaustion, and
the `ValueError`s standing for malformed JSON and non-object
responses — is converted by the operation's catch-all into its typed
fallback with `success=False` and the categorised error text; a payload
that fails schema validation yields the typed fallback with the
operation's descriptive error; no exception propagates to the
caller. -/
theorem C5_wellformed_outcomes :
    (∀ b m e, (makeRequest b m).outcome = .error e →
      (generateTestReading b m).1 =
        { success := false,
          error := some ("Техническая ошибка: " ++
                         (categorizeError e.cls).value),
          reading := none, extra := [] } ∧
      (generateTarotReading b m).1 =
        { success := false,
          error := some ("Техническая ошибка: " ++
                         (categorizeError e.cls).value),
          reading := none, extra := [] } ∧
      (generateTarotMessage b m).1 =
        { success := false,
          error := some ("Техническая ошибка: " ++
                         (categorizeError e.cls).value),
          message := none, card := none, extra := [] }) ∧
    (∀ b m kvs, (makeRequest b m).outcome = .ok kvs →
      TestReadingResponse.validate (.obj kvs) = none →
      (generateTestReading b m).1 =
        { success := false,
          error := some "Не удалось сгенерировать тестовое гадание",
          reading := none, extra := [] }) ∧
    (∀ b m kvs, (makeRequest b m).outcome = .ok kvs →
      TarotReadingResponse.validate (.obj kvs) = none →
      (generateTarotReading b m).1 =
        { success := false,
          error := some "Не удалось сгенерировать гадание на картах Таро",
          reading := none, extra := [] }) ∧
    (∀ b m kvs, (makeRequest b m).outcome = .ok kvs →
      TarotMessageResponse.validate (.obj kvs) = none →
      (generateTarotMessage b m).1 =
        { success := false,
          error := some "Не удалось сгенерировать сообщение от карт Таро",
          message := none, card := none, extra := [] }) ∧
    (∀ m, (generateTestReading (fun _ => .badJson) m).1 =
      { success := false, error := some "Техническая ошибка: unknown_error",
        reading := none, extra := [] }) ∧
    (∀ m j, (generateTestReading (fun _ => .nonObject j) m).1 =
      { success := false, error := some "Техническая ошибка: unknown_error",
        reading := none, extra := [] }) := by
  refine ⟨?_, ?_, ?_, ?_, ?_, ?_⟩
  · intro b m e h
    refine ⟨?_, ?_, ?_⟩ <;>
      simp [generateTestReading, generateTarotReading, generateTarotMessage, h]
  · intro b m kvs h hv
    simp [generateTestReading, h, hv]
  · intro b m kvs h hv
    simp [generateTarotReading, h, hv]
  · intro b m kvs h hv
    simp [generateTarotMessage, h, hv]
  · intro m
    simp [generateTestReading, makeRequest, makeRequestAux, runAttempt,
          retryPredicate, PyErr.cls, isInstanceOf, ancestors, categorizeError,
          ErrorType.value]
  · intro m j
    simp [generateTestReading, makeRequest, makeRequestAux, runAttempt,
          retryPredicate, PyErr.cls, isInstanceOf, ancestors, categorizeError,
          ErrorType.value]

/-- C5, witness: the theorem applied to a connection fault surviving
all three attempts, and to a schema-mismatching payload (a `reading`
field that is not an object). -/
theorem C5_wellformed_outcomes_witness :
    ((generateTestReading (fun _ => .exc .connection) {}).1 =
      { success := false,
        error := some ("Техническая ошибка: " ++
                       (categorizeError (PyErr.cls .connection)).value),
        reading := none, extra := [] } ∧
     (generateTarotReading (fun _ => .exc .connection) {}).1 =
      { success := false,
        error := some ("Техническая ошибка: " ++
                       (categorizeError (PyErr.cls .connection)).value),
        reading := none, extra := [] } ∧
     (generateTarotMessage (fun _ => .exc .connection) {}).1 =
      { success := false,
        error := some ("Техническая ошибка: " ++
                       (categorizeError (PyErr.cls .connection)).value),
        message := none, card := none, extra := [] }) ∧
    (generateTestReading (fun _ => .ok [("reading", Json.int 5)]) {}).1 =
      { success := false,
        error := some "Не удалось сгенерировать тестовое гадание",
        reading := none, extra := [] } :=
  ⟨C5_wellformed_outcomes.1 (fun _ => .exc .connection) {} .connection rfl,
   C5_wellformed_outcomes.2.1 (fun _ => .ok [("reading", Json.int 5)]) {}
     [("reading", Json.int 5)] rfl rfl⟩

theorem getUserState_saveUserState (users : Coll) (u : UserState)
    (uid : Int) (h : u.user_id = uid) :
    getUserState (saveUserState users u) uid = some u := by
  subst h
  unfold getUserState getUser saveUserState saveUser
  rw [jsonGet_jsonSet_self]
  have hfalsy : jsonFalsy u.dump = false := by
    simp [UserState.dump, jsonFalsy]
  simp [hfalsy, UserState.validate_dump]

theorem testDeliveryResult_cases (g : TestReadingResponse) :
    testDeliveryResult g = .delivered ∨ testDeliveryResult g = .deliveryError := by
  unfold testDeliveryResult
  split
  · exact Or.inl rfl
  · exact Or.inr rfl

/-- C1, counterexample to the original claim: the premium counter is
incremented at payment settlement, BEFORE generation, so a premium flow
whose generation call returns a failure outcome does not leave the
user's counters unchanged — here an age-confirmed user with premium
count 0 pays, the generation fails, and the stored count is 1. -/
theorem C1_counterexample :
    premiumCountOf
      (saveUserState [] { UserState.mkNew 5 with age_confirmed := true }) 5 =
      some 0 ∧
    ({ success := false, error := some "Техническая ошибка: rate_limit" }
        : TarotReadingResponse).success = false ∧
    (processBirthdate 5 "05.08.1990"
      (processSuccessfulPayment 5
        (saveUserState [] { UserState.mkNew 5 with age_confirmed := true })).1
      [] { success := false, error := some "Техническая ошибка: rate_limit" }
      "rid-1").1 =
      .premiumGenFailed "Техническая ошибка: rate_limit" ∧
    premiumCountOf
      (processBirthdate 5 "05.08.1990"
        (processSuccessfulPayment 5
          (saveUserState [] { UserState.mkNew 5 with age_confirmed := true })).1
        [] { success := false, error := some "Техническая ошибка: rate_limit" }
        "rid-1").2.1 5 = some 1 :=
  ⟨rfl, rfl, rfl, rfl⟩

/-- C1 (amended), theorem: in the test flow the counter discipline is
as claimed — a failure outcome leaves both stores untouched, and on a
success the test counter is incremented exactly once, after the success
check; but the premium counter is incremented exactly once at payment
settlement, before any generation, and the birthdate/generation step
never touches the user record — so a failed premium generation has
already consumed the paid increment. -/
theorem C1_counter_increments :
    (∀ uid cfg users readings gen fid, gen.success = false →
      (startTestReading uid cfg users readings gen fid).2.1 = users ∧
      (startTestReading uid cfg users readings gen fid).2.2 = readings) ∧
    (∀ uid cfg users readings gen fid us,
      getUserState users uid = some us → us.user_id = uid →
      us.age_confirmed = true →
      us.can_do_test_reading cfg.FREE_TEST_LIMIT cfg.freeUsers = true →
      gen.success = true →
      (startTestReading uid cfg users readings gen fid).2.1 =
        saveUserState users us.increment_test_readings ∧
      testCountOf (startTestReading uid cfg users readings gen fid).2.1 uid =
        some (us.test_readings_count + 1)) ∧
    (∀ uid users us, getUserState users uid = some us → us.user_id = uid →
      premiumCountOf (processSuccessfulPayment uid users).1 uid =
        some (us.premium_readings_count + 1)) ∧
    (∀ uid users, getUserState users uid = none →
      premiumCountOf (processSuccessfulPayment uid users).1 uid = some 1) ∧
    (∀ uid text users readings gen fid,
      (processBirthdate uid text users readings gen fid).2.1 = users) := by
  refine ⟨?_, ?_, ?_, ?_, ?_⟩
  · intro uid cfg users readings gen fid h
    unfold startTestReading
    cases hg : getUserState users uid with
    | none => exact ⟨rfl, rfl⟩
    | some us =>
      by_cases ha : us.age_confirmed <;>
        by_cases hc : us.can_do_test_reading cfg.FREE_TEST_LIMIT cfg.freeUsers <;>
        simp [ha, hc, h]
  · intro uid cfg users readings gen fid us hg hid ha hc hs
    have h1 : (startTestReading uid cfg users readings gen fid).2.1 =
        saveUserState users us.increment_test_readings := by
      unfold startTestReading
      rw [hg]
      simp [ha, hc, hs]
    refine ⟨h1, ?_⟩
    rw [h1]
    unfold testCountOf
    rw [getUserState_saveUserState users us.increment_test_readings uid hid]
    simp [UserState.increment_test_readings]
  · intro uid users us hg hid
    unfold processSuccessfulPayment premiumCountOf
    rw [hg]
    simp only [Option.getD_some]
    rw [getUserState_saveUserState users
      { us with premium_readings_count := us.premium_readings_count + 1 }
      uid hid]
    simp
  · intro uid users hg
    unfold processSuccessfulPayment premiumCountOf
    rw [hg]
    simp only [Option.getD_none, UserState.mkNew]
    rw [getUserState_saveUserState users
      { user_id := uid, username := none, test_readings_count := 0,
        premium_readings_count := 0 + 1, age_confirmed := false,
        last_reading_id := none }
      uid rfl]
    simp
  · intro uid text users readings gen fid
    unfold processBirthdate
    cases validateBirthdate text <;> rfl

/-- C1, witness: the amended theorem applied to a confirmed user with
count 0, a failed then a successful test generation, and a payment
settlement. -/
theorem C1_counter_increments_witness :
    ((startTestReading 5 {} (saveUserState [] { UserState.mkNew 5 with age_confirmed := true }) []
        { success := false, error := some "e" } "rid").2.1 =
      saveUserState [] { UserState.mkNew 5 with age_confirmed := true } ∧
     (startTestReading 5 {} (saveUserState [] { UserState.mkNew 5 with age_confirmed := true }) []
        { success := false, error := some "e" } "rid").2.2 = []) ∧
    testCountOf
      (startTestReading 5 {} (saveUserState [] { UserState.mkNew 5 with age_confirmed := true }) []
        { success := true, reading := some okTestReading } "rid").2.1 5 =
      some 1 ∧
    premiumCountOf
      (processSuccessfulPayment 5
        (saveUserState [] { UserState.mkNew 5 with age_confirmed := true })).1 5 =
      some 1 :=
  ⟨C1_counter_increments.1 5 {} _ [] { success := false, error := some "e" } "rid" rfl,
   by
    have := (C1_counter_increments.2.1 5 {}
      (saveUserState [] { UserState.mkNew 5 with age_confirmed := true }) []
      { success := true, reading := some okTestReading } "rid"
      { UserState.mkNew 5 with age_confirmed := true }
      (by rfl) rfl rfl (by rfl) rfl).2
    simpa using this,
   C1_counter_increments.2.2.1 5
     (saveUserState [] { UserState.mkNew 5 with age_confirmed := true })
     { UserState.mkNew 5 with age_confirmed := true } (by rfl) rfl⟩

/-- C2, counterexample to the original claim: a stored user with
`age_confirmed = false` presses the pay button and is admitted straight
into the premium flow — for an allow-listed user all the way to the
birthdate prompt — because neither `start_premium_reading` nor
`process_payment` consults the user record or the age flag. -/
theorem C2_counterexample :
    (getUserState [("7", (UserState.mkNew 7).dump)] 7).map
        UserState.age_confirmed = some false ∧
    processPayment 7 { freeUsers := [7] } =
      (.birthdatePromptFree, .waitingForBirthdate) ∧
    startPremiumReading 7 [("7", (UserState.mkNew 7).dump)] =
      (.premiumOffer, [("7", (UserState.mkNew 7).dump)]) :=
  ⟨rfl, by simp [processPayment], rfl⟩

/-- C2 (amended), theorem: only the test-reading entry point enforces
the age gate — a missing or unconfirmed user is routed to the
age-verification prompt with nothing mutated; the premium entry points
(`start_premium_reading`, `process_payment`, and the settlement handler
`process_successful_payment`) read no age flag and admit any user into
the premium flow regardless of the stored `age_confirmed` value. -/
theorem C2_age_gate :
    (∀ uid cfg users readings gen fid, getUserState users uid = none →
      startTestReading uid cfg users readings gen fid =
        (.agePrompt, users, readings)) ∧
    (∀ uid cfg users readings gen fid us,
      getUserState users uid = some us → us.age_confirmed = false →
      startTestReading uid cfg users readings gen fid =
        (.agePrompt, users, readings)) ∧
    (∀ uid users, startPremiumReading uid users = (.premiumOffer, users)) ∧
    (∀ uid cfg, uid ∈ cfg.freeUsers →
      processPayment uid cfg = (.birthdatePromptFree, .waitingForBirthdate)) ∧
    (∀ uid cfg, uid ∉ cfg.freeUsers →
      processPayment uid cfg = (.invoiceSent, .waitingForPayment)) ∧
    (∀ uid users, (processSuccessfulPayment uid users).2 =
      .waitingForBirthdate) := by
  refine ⟨?_, ?_, fun uid users => rfl, ?_, ?_, fun uid users => rfl⟩
  · intro uid cfg users readings gen fid h
    unfold startTestReading
    rw [h]
  · intro uid cfg users readings gen fid us h ha
    unfold startTestReading
    rw [h]
    simp [ha]
  · intro uid cfg h
    simp [processPayment, h]
  · intro uid cfg h
    simp [processPayment, h]

/-- C2, witness: the amended theorem applied to an unconfirmed stored
user hitting the test entry (routed to the age prompt) and to
non-allow-listed premium payment entry (invoice, still no age check). -/
theorem C2_age_gate_witness :
    startTestReading 7 {} [("7", (UserState.mkNew 7).dump)] []
        { success := true } "rid" =
      (.agePrompt, [("7", (UserState.mkNew 7).dump)], []) ∧
    processPayment 7 {} = (.invoiceSent, .waitingForPayment) :=
  ⟨C2_age_gate.2.1 7 {} [("7", (UserState.mkNew 7).dump)] []
      { success := true } "rid" (UserState.mkNew 7) rfl rfl,
   C2_age_gate.2.2.2.2.1 7 {} (by simp)⟩

/-- C6, theorem: `can_do_test_reading` admits an allow-listed user
unconditionally, and everyone else exactly while their count is below
the limit; in the flow, a confirmed user failing the guard gets the
limit message with both stores untouched, and a user passing the guard
is never answered with the limit message or the age prompt. -/
theorem C6_free_tier_guard :
    (∀ (u : UserState) limit free, u.user_id ∈ free →
      u.can_do_test_reading limit free = true) ∧
    (∀ (u : UserState) limit free, u.user_id ∉ free →
      (u.can_do_test_reading limit free = true ↔
        u.test_readings_count < limit)) ∧
    (∀ uid cfg users readings gen fid us,
      getUserState users uid = some us → us.age_confirmed = true →
      us.can_do_test_reading cfg.FREE_TEST_LIMIT cfg.freeUsers = false →
      startTestReading uid cfg users readings gen fid =
        (.limitReached, users, readings)) ∧
    (∀ uid cfg users readings gen fid us,
      getUserState users uid = some us → us.age_confirmed = true →
      us.can_do_test_reading cfg.FREE_TEST_LIMIT cfg.freeUsers = true →
      (startTestReading uid cfg users readings gen fid).1 ≠ .limitReached ∧
      (startTestReading uid cfg users readings gen fid).1 ≠ .agePrompt) := by
  refine ⟨?_, ?_, ?_, ?_⟩
  · intro u limit free h
    simp [UserState.can_do_test_reading, h]
  · intro u limit free h
    simp [UserState.can_do_test_reading, h]
  · intro uid cfg users readings gen fid us hg ha hc
    unfold startTestReading
    rw [hg]
    simp [ha, hc]
  · intro uid cfg users readings gen fid us hg ha hc
    unfold startTestReading
    rw [hg]
    simp only [ha, hc, Bool.not_true, Bool.false_eq_true, if_false]
    cases hs : gen.success with
    | false => simp
    | true =>
      simp only [Bool.not_true, Bool.false_eq_true, if_false]
      rcases testDeliveryResult_cases gen with h | h <;> simp [h]

/-- A confirmed user who has used up the default free-tier limit. -/
def limitUser5 : UserState :=
  { UserState.mkNew 5 with age_confirmed := true, test_readings_count := 3 }

/-- An allow-listed user far past the limit. -/
def freeLister9 : UserState :=
  { UserState.mkNew 9 with test_readings_count := 1000 }

/-- C6, witness: a non-allow-listed confirmed user at the limit is
blocked with stores unchanged; an allow-listed user with a count far
past the limit still passes the guard. -/
theorem C6_free_tier_guard_witness :
    startTestReading 5 { FREE_TEST_LIMIT := 3, freeUsers := [] }
        (saveUserState [] limitUser5) [] { success := true } "rid" =
      (.limitReached, saveUserState [] limitUser5, []) ∧
    UserState.can_do_test_reading freeLister9 3 [9] = true :=
  ⟨C6_free_tier_guard.2.2.1 5 { FREE_TEST_LIMIT := 3, freeUsers := [] }
      (saveUserState [] limitUser5) [] { success := true } "rid" limitUser5
      (by rfl) rfl (by decide),
   C6_free_tier_guard.1 freeLister9 3 [9] (by decide)⟩

/-- Observer for reading records: a field of the stored record. -/
def storedReadingField (readings : Coll) (rid key : String) : Option Json :=
  match getReading readings rid with
  | some (.obj kvs) => jsonGet kvs key
  | _ => none

/-- C8, counterexample to the original claim: `process_birthdate`
persists the reading record before checking the outcome, so a FAILED
premium generation also stores a record — here the stored record under
the fresh id carries `success = false`. -/
theorem C8_counterexample :
    ({ success := false, error := some "err" } : TarotReadingResponse).success
      = false ∧
    storedReadingField
      (processBirthdate 5 "05.08.1990" [] []
        { success := false, error := some "err" } "rid-1").2.2.1
      "rid-1" "success" = some (.bool false) :=
  ⟨rfl, rfl⟩

/-- C8 (amended), theorem: in the test flow a record is persisted only
on a successful generation (a failure outcome leaves the reading store
untouched) and exactly once; in the premium flow the outcome record —
successful or failed — is persisted exactly once per completed
birthdate submission; and the store is append-only under fresh ids: a
save with a fresh id never updates or deletes existing records (no
delete operation exists in the storage facade). -/
theorem C8_reading_persistence :
    (∀ uid cfg users readings gen fid, gen.success = false →
      (startTestReading uid cfg users readings gen fid).2.2 = readings) ∧
    (∀ uid cfg users readings gen fid us,
      getUserState users uid = some us → us.age_confirmed = true →
      us.can_do_test_reading cfg.FREE_TEST_LIMIT cfg.freeUsers = true →
      gen.success = true →
      (startTestReading uid cfg users readings gen fid).2.2 =
        (saveReading readings (jsonSet gen.dump "user_id" (.int uid)) fid).2) ∧
    (∀ uid text users readings gen fid bd, validateBirthdate text = some bd →
      (processBirthdate uid text users readings gen fid).2.2.1 =
        (saveReading readings (jsonSet gen.dump "user_id" (.int uid)) fid).2) ∧
    (∀ readings rdata fid, jsonGet rdata "id" = none →
      getReading (saveReading readings rdata fid).2 fid =
        some (.obj (jsonSet rdata "id" (.str fid)))) ∧
    (∀ readings rdata fid k, jsonGet rdata "id" = none → k ≠ fid →
      getReading (saveReading readings rdata fid).2 k =
        getReading readings k) := by
  refine ⟨?_, ?_, ?_, ?_, ?_⟩
  · intro uid cfg users readings gen fid h
    unfold startTestReading
    cases hg : getUserState users uid with
    | none => rfl
    | some us =>
      by_cases ha : us.age_confirmed <;>
        by_cases hc : us.can_do_test_reading cfg.FREE_TEST_LIMIT cfg.freeUsers <;>
        simp [ha, hc, h]
  · intro uid cfg users readings gen fid us hg ha hc hs
    unfold startTestReading
    rw [hg]
    simp [ha, hc, hs]
  · intro uid text users readings gen fid bd h
    unfold processBirthdate
    rw [h]
  · intro readings rdata fid h
    unfold saveReading getReading
    rw [h]
    exact jsonGet_jsonSet_self _ _ _
  · intro readings rdata fid k h hk
    unfold saveReading getReading
    rw [h]
    exact jsonGet_jsonSet_other _ _ _ _ hk

/-- C8, witness: a failed test generation stores nothing; a completed
premium submission stores the outcome record under the fresh id,
leaving an existing record intact. -/
theorem C8_reading_persistence_witness :
    (startTestReading 5 {} (saveUserState [] { UserState.mkNew 5 with age_confirmed := true })
        [("old", Json.obj [])] { success := false, error := some "e" } "rid").2.2 =
      [("old", Json.obj [])] ∧
    (processBirthdate 5 "05.08.1990" [] [("old", Json.obj [])]
        { success := false, error := some "e" } "rid-1").2.2.1 =
      (saveReading [("old", Json.obj [])]
        (jsonSet ({ success := false, error := some "e" }
          : TarotReadingResponse).dump "user_id" (.int 5)) "rid-1").2 ∧
    getReading (saveReading [("old", Json.obj [])]
        [("success", Json.bool false)] "rid-1").2 "old" =
      some (Json.obj []) :=
  ⟨C8_reading_persistence.1 5 {} _ [("old", Json.obj [])]
      { success := false, error := some "e" } "rid" rfl,
   C8_reading_persistence.2.2.1 5 "05.08.1990" [] [("old", Json.obj [])]
      { success := false, error := some "e" } "rid-1" "05.08.1990" rfl,
   C8_reading_persistence.2.2.2.2 [("old", Json.obj [])]
      [("success", Json.bool false)] "rid-1" "old" rfl (by decide)⟩

/-- C10, theorem: `get_user_state` answers `None` both for an absent
(or falsy) entry and for a stored record that fails `UserState`
validation; the callers then synthesize the fresh default (zero counts,
`age_confirmed = false`): `/start` saves a fresh default record and
shows the age prompt, and the counter helper increments from zero,
writing back count 1 — so a corrupt stored record silently resets that
user's counters and age confirmation. -/
theorem C10_corrupt_record_reset :
    (∀ users uid, getUser users uid = none → getUserState users uid = none) ∧
    (∀ users uid j, getUser users uid = some j → UserState.validate j = none →
      getUserState users uid = none) ∧
    (∀ users uid, getUserState users uid = none →
      commandStart uid users =
        (.ageVerification, saveUserState users (UserState.mkNew uid),
         .waitingForConfirmation) ∧
      incrementTestReadingsCount users uid =
        (1, saveUserState users
              ((UserState.mkNew uid).increment_test_readings))) := by
  refine ⟨?_, ?_, ?_⟩
  · intro users uid h
    unfold getUserState
    rw [h]
  · intro users uid j h hv
    unfold getUserState
    rw [h]
    by_cases hf : jsonFalsy j <;> simp [hf, hv]
  · intro users uid h
    constructor
    · unfold commandStart
      rw [h]
    · unfold incrementTestReadingsCount
      rw [h]
      simp [UserState.mkNew, UserState.increment_test_readings]

/-- A stored user record whose `user_id` is a non-numeric string: it
fails `UserState` validation while claiming 99 test readings and a
confirmed age. -/
def corruptRecord : Json :=
  Json.obj [("user_id", Json.str "corrupt"),
            ("test_readings_count", Json.int 99),
            ("age_confirmed", Json.bool true)]

/-- A user store holding only the corrupt record under key "5". -/
def corruptStore5 : Coll := [("5", corruptRecord)]

/-- C10, witness: a stored record whose `user_id` is a non-numeric
string fails validation; `get_user_state` answers `None`, `/start`
overwrites it with the fresh default and shows the age prompt, and the
counter helper writes back a count of 1 even though the corrupt record
said 99. -/
theorem C10_corrupt_record_reset_witness :
    getUserState corruptStore5 5 = none ∧
    commandStart 5 corruptStore5 =
      (.ageVerification, saveUserState corruptStore5 (UserState.mkNew 5),
       .waitingForConfirmation) ∧
    incrementTestReadingsCount corruptStore5 5 =
      (1, saveUserState corruptStore5
            ((UserState.mkNew 5).increment_test_readings)) :=
  ⟨C10_corrupt_record_reset.2.1 corruptStore5 5 corruptRecord rfl rfl,
   (C10_corrupt_record_reset.2.2 corruptStore5 5
      (C10_corrupt_record_reset.2.1 corruptStore5 5 corruptRecord rfl rfl)).1,
   (C10_corrupt_record_reset.2.2 corruptStore5 5
      (C10_corrupt_record_reset.2.1 corruptStore5 5 corruptRecord rfl rfl)).2⟩

end Alcotaro
